import Mathlib

/-!
Shallow embedding of the ReverseGeoTagger geocoding core
(src/cache.py `GeocodingCache`, src/worker.py `GeocodingWorker`;
src/geo_tagger.py duplicates the cache class verbatim).

Modelling conventions:
* Points in time (`datetime.now()`, parsed ISO timestamps) are integers in
  microseconds, the resolution of Python's `datetime`;
  `datetime.now() - timestamp > timedelta(days=m)` becomes
  `m * microsecondsPerDay < now - t`.
* Coordinates are exact rationals `ℚ` (the decimal values the code parses;
  binary-float representation error is abstracted away).  Python's
  `round(x, p)` (round-half-to-even to `p` decimal digits) is modelled
  exactly: the rounded value is carried as the integer `round(x * 10^p)`
  (the value scaled by `10^p`), and its decimal rendering — what the
  f-string of `_generate_cache_key` prints — is produced by `decimalRepr`.
* A Python `dict` is modelled as an association list with unique keys
  (Python dicts cannot hold duplicate keys); insertion order is preserved,
  matching `dict` iteration order.
* The md5 hashing step of `_generate_cache_key` is a deterministic function
  of the canonical string `f"{lat},{lon}"`; the model keeps the canonical
  pre-hash string as the key (equal strings hash equally, which is all the
  key is used for).
* Filesystem persistence (`save_cache`) is modelled by a `persisted` copy of
  the store plus a flush counter; the `IOError` branch (which merely logs)
  is not modelled.
* Subprocess and HTTP interactions are modelled by explicit result values
  (the code's `try/except` outcome structure), with the exit code and stdout
  carried so that the code's use (or non-use) of them is faithful.
-/

/-- Microseconds per day: the exact value of `timedelta(days=1)` at
`datetime`'s resolution. -/
def microsecondsPerDay : ℤ := 86400000000

/-- A Python location dict: string keys to string values. -/
def LocationData := List (String × String)

instance : DecidableEq LocationData := by
  unfold LocationData
  infer_instance

instance : Inhabited LocationData := ⟨([] : List (String × String))⟩

/-- Python `d.get(k, '')`. -/
def LocationData.getS (l : LocationData) (k : String) : String :=
  match List.lookup k l with
  | some v => v
  | none => ""

/-- Python `bool(...)` applied to an `Optional[Dict]`: `None` and the empty
dict are falsy, a non-empty dict is truthy. -/
def pyTruthy : Option LocationData → Bool
  | none => false
  | some l => !(List.isEmpty l)

/-- The `timestamp` field of a stored cache entry, as the code's three
observable cases: absent/empty (`entry.get('timestamp')` falsy), present but
rejected by `datetime.fromisoformat` (ValueError/TypeError), or parseable to
a point in time `t` (microseconds). -/
inductive TimestampField
  | missing
  | unparseable (s : String)
  | valid (t : ℤ)
deriving DecidableEq

/-- A value of the cache store: what `GeocodingCache.set` writes
(src/cache.py lines 94-102).  `coordLat`/`coordLon` hold
`round(lat, precision)` / `round(lon, precision)` as the exact value scaled
by `10^precision` (an integer).  `location_data` is an `Option` because
`get` reads it with `cache_entry.get('location_data')`, which yields
`None` when the key is absent from an on-disk entry. -/
structure CacheEntry where
  timestamp : TimestampField
  coordLat : ℤ
  coordLon : ℤ
  precision : ℕ
  location_data : Option LocationData
deriving DecidableEq

/-- In-memory cache object (src/cache.py `GeocodingCache.__init__`), plus the
persistence model: `persisted` mirrors the JSON file contents, `save_count`
counts `save_cache` flushes. -/
structure GeocodingCache where
  cache_file : String
  cache_data : List (String × CacheEntry)
  cache_max_age_days : ℤ
  precision : ℕ
  persisted : List (String × CacheEntry)
  save_count : ℕ
deriving DecidableEq

/-- Python dict lookup `d[k]` / `k in d` on the association-list model. -/
def lookupEntry (k : String) : List (String × CacheEntry) → Option CacheEntry
  | [] => none
  | (k', v) :: rest => if k' = k then some v else lookupEntry k rest

/-- Python dict assignment `d[k] = v`: replaces in place when the key exists,
appends otherwise. -/
def updateEntry (k : String) (v : CacheEntry) :
    List (String × CacheEntry) → List (String × CacheEntry)
  | [] => [(k, v)]
  | (k', v') :: rest =>
      if k' = k then (k, v) :: rest else (k', v') :: updateEntry k v rest

/-- Python `round(x, ndigits)`, returned as the rounded value scaled by
`10^ndigits`: the round-half-to-even integer nearest to `x * 10^ndigits`,
computed with exact integer arithmetic (`Int.fdiv` is floor division; the
denominator of a `ℚ` is positive, so `r` is the nonnegative remainder and
`2*r` against `d` compares the fractional part against one half). -/
def scaledRound (x : ℚ) (ndigits : ℕ) : ℤ :=
  let n := x.num * (10 : ℤ) ^ ndigits
  let d := (x.den : ℤ)
  let q := Int.fdiv n d
  let r := n - q * d
  if 2 * r < d then q
  else if d < 2 * r then q + 1
  else if q % 2 = 0 then q else q + 1

/-- Decimal rendering of a nonnegative scaled value `n / 10^p`, as Python's
float formatting prints it: integer part, a dot, and the fractional digits
with trailing zeros removed but at least one digit kept (`"2.0"`, not
`"2."`). -/
def natDecimalRepr (n : ℕ) (p : ℕ) : String :=
  let ip := n / 10 ^ p
  let fr := n % 10 ^ p
  let frDigits := (toString fr).data
  let padded := List.replicate (p - frDigits.length) '0' ++ frDigits
  let stripped := (padded.reverse.dropWhile (fun c => c = '0')).reverse
  let fracStr := if stripped.isEmpty then "0" else String.mk stripped
  toString ip ++ "." ++ fracStr

/-- Decimal rendering of a scaled value `v / 10^p` (Python's float
formatting; the signed-zero artefact `-0.0` of binary floats does not arise
for exact rationals). -/
def decimalRepr (v : ℤ) (p : ℕ) : String :=
  if v < 0 then "-" ++ natDecimalRepr v.natAbs p else natDecimalRepr v.toNat p

/-- `GeocodingCache._generate_cache_key` (src/cache.py lines 47-51): round
both coordinates to the active precision and form the canonical string
`f"{lat_rounded},{lon_rounded}"`.  The md5 hexdigest applied to this string
is a deterministic function, so the pre-hash string is kept as the key. -/
def generate_cache_key (precision : ℕ) (lat lon : ℚ) : String :=
  decimalRepr (scaledRound lat precision) precision ++ "," ++
    decimalRepr (scaledRound lon precision) precision

/-- `GeocodingCache.save_cache` (src/cache.py lines 62-67), success path:
flush the in-memory store to disk. -/
def GeocodingCache.save_cache (c : GeocodingCache) : GeocodingCache :=
  { c with persisted := c.cache_data, save_count := c.save_count + 1 }

/-- `GeocodingCache.get` (src/cache.py lines 69-89).  `now` is the value of
`datetime.now()` in microseconds; `age > timedelta(days=max_age_days)` is
the exact integer comparison. -/
def GeocodingCache.get (c : GeocodingCache) (now : ℤ) (lat lon : ℚ) :
    Option LocationData :=
  let cache_key := generate_cache_key c.precision lat lon
  match lookupEntry cache_key c.cache_data with
  | none => none
  | some cache_entry =>
    match cache_entry.timestamp with
    | .missing => none
    | .unparseable _ => none
    | .valid t =>
      if c.cache_max_age_days * microsecondsPerDay < now - t then none
      else cache_entry.location_data

/-- `GeocodingCache.set` (src/cache.py lines 91-104). -/
def GeocodingCache.set (c : GeocodingCache) (now : ℤ) (lat lon : ℚ)
    (location_data : LocationData) : GeocodingCache :=
  let cache_key := generate_cache_key c.precision lat lon
  let entry : CacheEntry :=
    { timestamp := .valid now
      coordLat := scaledRound lat c.precision
      coordLon := scaledRound lon c.precision
      precision := c.precision
      location_data := some location_data }
  GeocodingCache.save_cache
    { c with cache_data := updateEntry cache_key entry c.cache_data }

/-- The branch structure shared verbatim by the scan loops of
`clear_old_entries` (where a `true` entry's key joins `keys_to_delete`) and
`get_stats` (where a `true` entry is counted `expired`): nothing happens
without a timestamp (`if timestamp_str:`), an unparseable timestamp takes
the `except` branch, a parsed one is over-age iff
`age > timedelta(days=m)`. -/
def entryOverAge (m now : ℤ) (entry : CacheEntry) : Bool :=
  match entry.timestamp with
  | .missing => false
  | .unparseable _ => true
  | .valid t => decide (m * microsecondsPerDay < now - t)

/-- The `valid_entries += 1` condition of the `get_stats` scan: a parseable
timestamp with `age <= timedelta(days=m)`; anything else is not valid. -/
def entryWithinAge (m now : ℤ) (entry : CacheEntry) : Bool :=
  match entry.timestamp with
  | .valid t => decide (now - t ≤ m * microsecondsPerDay)
  | _ => false

/-- `GeocodingCache.clear_old_entries` (src/cache.py lines 106-131).
Returns the Python return value (the deletion count) together with the
post-state.  The key-collection loop visits entries in dict order; since a
Python dict has unique keys, the `del` loop over `keys_to_delete` is the
same as filtering the store by the collection predicate. -/
def GeocodingCache.clear_old_entries (c : GeocodingCache) (now : ℤ)
    (max_age_days : Option ℤ) : ℕ × GeocodingCache :=
  let m := max_age_days.getD c.cache_max_age_days
  let keys_to_delete :=
    (c.cache_data.filter (fun kv => entryOverAge m now kv.2)).map (fun kv => kv.1)
  let c' := { c with cache_data := c.cache_data.filter (fun kv => !entryOverAge m now kv.2) }
  if keys_to_delete.isEmpty then (keys_to_delete.length, c')
  else (keys_to_delete.length, GeocodingCache.save_cache c')

/-- One row of `GeocodingCache.PRECISION_LEVELS` (src/cache.py lines 15-21). -/
structure PrecisionInfo where
  name : String
  accuracy : String
  description : String
deriving DecidableEq

/-- `GeocodingCache.PRECISION_LEVELS` as a partial map. -/
def PRECISION_LEVELS : ℕ → Option PrecisionInfo
  | 3 => some ⟨"3 Dezimalstellen", "~111m", "Stadtteile/große Bereiche"⟩
  | 4 => some ⟨"4 Dezimalstellen", "~11m", "Straßenabschnitte"⟩
  | 5 => some ⟨"5 Dezimalstellen", "~1m", "Gebäude (Standard)"⟩
  | 6 => some ⟨"6 Dezimalstellen", "~0.1m", "Exakte Position"⟩
  | 7 => some ⟨"7 Dezimalstellen", "~0.01m", "Maximale Genauigkeit"⟩
  | _ => none

/-- `GeocodingCache.get_precision_info` (src/cache.py lines 44-45). -/
def GeocodingCache.get_precision_info (c : GeocodingCache) : PrecisionInfo :=
  (PRECISION_LEVELS c.precision).getD ⟨"5 Dezimalstellen", "~1m", "Gebäude (Standard)"⟩

/-- `GeocodingCache.set_precision` (src/cache.py lines 36-38). -/
def GeocodingCache.set_precision (c : GeocodingCache) (precision : ℕ) :
    GeocodingCache :=
  if (PRECISION_LEVELS precision).isSome then { c with precision := precision } else c

/-- `GeocodingCache.set_max_age_days` (src/cache.py lines 40-42). -/
def GeocodingCache.set_max_age_days (c : GeocodingCache) (days : ℤ) :
    GeocodingCache :=
  if 0 < days then { c with cache_max_age_days := days } else c

/-- Result record of `GeocodingCache.get_stats`. -/
structure CacheStats where
  total : ℕ
  valid : ℕ
  expired : ℕ
  cache_file : String
  max_age_days : ℤ
  precision : ℕ
  precision_name : String
  precision_accuracy : String
deriving DecidableEq

/-- `GeocodingCache.get_stats` (src/cache.py lines 133-165).  The source's
single pass incrementing `valid_entries` / `expired_entries` is rendered as
two counts with the branch conditions of that pass; an entry whose
`timestamp` is absent/empty falls into neither counter, exactly as in the
source (`if timestamp_str:` guards both). -/
def GeocodingCache.get_stats (c : GeocodingCache) (now : ℤ) : CacheStats :=
  let total_entries := c.cache_data.length
  let valid_entries :=
    c.cache_data.countP (fun kv => entryWithinAge c.cache_max_age_days now kv.2)
  let expired_entries :=
    c.cache_data.countP (fun kv => entryOverAge c.cache_max_age_days now kv.2)
  let pinfo := c.get_precision_info
  { total := total_entries
    valid := valid_entries
    expired := expired_entries
    cache_file := c.cache_file
    max_age_days := c.cache_max_age_days
    precision := c.precision
    precision_name := pinfo.name
    precision_accuracy := pinfo.accuracy }

/-!  Worker side (src/worker.py `GeocodingWorker`).  External interactions
(subprocess runs of the metadata tool, the HTTP request) are modelled by
explicit outcome values: an `exc` constructor for the exception cases the
code catches, and an `ok` constructor carrying what the code actually reads
from the result object (exit code and stdout), so that whether the code
consults the exit code is visible in the model. -/

/-- Run statistics dict (src/worker.py lines 33-41). -/
structure Stats where
  cache_hits : ℕ
  api_calls : ℕ
  total_processed : ℕ
  skipped_already_tagged : ℕ
  skipped_no_gps : ℕ
  metadata_written : ℕ
  metadata_unchanged : ℕ
deriving DecidableEq

/-- All-zero statistics, as initialised in `GeocodingWorker.__init__`. -/
def initStats : Stats := ⟨0, 0, 0, 0, 0, 0, 0⟩

/-- Outcome of a `subprocess.run` of the metadata tool in read mode:
either one of the exceptions the code catches (timeout, tool not found,
anything else), or a completed process with its exit code and stdout. -/
inductive ExifReadResult
  | exc
  | ok (returncode : ℤ) (stdout : String)
deriving DecidableEq

/-- Outcome of the write-mode `subprocess.run` in `write_location_data`:
exception, or a completed process with its exit code. -/
inductive WriteResult
  | exc
  | ok (returncode : ℤ)
deriving DecidableEq

/-- Outcome of the HTTP request in `reverse_geocode`: an exception
(`requests.RequestException`, `raise_for_status`, JSON decoding, …) or a
parsed body's `features` array, each feature reduced to its `properties`
mapping.  A body without a `features` key behaves as an empty array
(`if 'features' in data and len(data['features']) > 0`). -/
inductive HttpResult
  | exc
  | ok (features : List LocationData)
deriving DecidableEq

/-- Everything the environment decides for one `process_image` call:
the subprocess outcome of the existing-location probe, the result of
`get_gps_data` (whose own subprocess/sidecar-parsing internals are
abstracted to the `Optional[Tuple[float, float]]` it returns), the HTTP
outcome used on a cache miss, the subprocess outcome of the comparison
read, the write outcome, and whether an XMP sidecar exists. -/
structure WorkerEnv where
  existingRead : ExifReadResult
  gpsResult : Option (ℚ × ℚ)
  httpResponse : HttpResult
  compareRead : ExifReadResult
  writeResult : WriteResult
  xmpExists : Bool
deriving DecidableEq

/-- Trace of a run: the Qt signals the worker emits (`log`, `progress`,
`finished`, `error`, `cache_stats`), a `cancelCheck` marker for each
evaluation of `self.should_stop`, and a marker per external call. -/
inductive Event
  | log (s : String)
  | progress (current total : ℕ)
  | finished
  | error (s : String)
  | cacheStatsEvt
  | cancelCheck
  | exifExistingProbe
  | exifGpsRead
  | httpRequest
  | exifCompareRead
  | exifWrite
  | exifSidecarWrite
deriving DecidableEq

/-- Python's whitespace test for `str.strip()` (ASCII whitespace; the
unicode space classes Python also strips never occur in tool output). -/
def pyIsSpace (c : Char) : Bool :=
  c == ' ' || c == '\t' || c == '\n' || c == '\r' ||
    c == Char.ofNat 11 || c == Char.ofNat 12

/-- Python `s.strip()`. -/
def pyStrip (s : String) : String :=
  String.mk (((s.data.dropWhile pyIsSpace).reverse.dropWhile pyIsSpace).reverse)

/-- Python `s.split(sep)` for a one-character separator: non-collapsing
split, so `''.split('\n') == ['']`. -/
def splitChar (sep : Char) : List Char → List (List Char)
  | [] => [[]]
  | x :: xs =>
    let r := splitChar sep xs
    if x = sep then [] :: r
    else
      match r with
      | [] => [[x]]
      | h :: t => (x :: h) :: t

/-- Python `s.split('\n')` on a string. -/
def pySplitNl (s : String) : List String :=
  (splitChar '\n' s.data).map String.mk

/-- `GeocodingWorker.check_existing_location_data` (src/worker.py lines
107-126): truthiness of the stripped stdout; every caught exception yields
`False`.  The exit code is not consulted by the source. -/
def check_existing_location_data : ExifReadResult → Bool
  | .exc => false
  | .ok _returncode stdout => !(pyStrip stdout == "")

/-- `GeocodingWorker.compare_location_data` (src/worker.py lines 183-216):
split the stripped stdout into lines, read city/state/country positionally
(missing lines default to `''`), compare against `new_location.get(k, '')`;
`False` means "already equal", `True` means "write needed"; every caught
exception yields `True`.  The exit code is not consulted by the source. -/
def compare_location_data (read : ExifReadResult) (new_location : LocationData) :
    Bool :=
  match read with
  | .exc => true
  | .ok _returncode stdout =>
    let lines := pySplitNl (pyStrip stdout)
    let existing_city := lines.getD 0 ""
    let existing_state := lines.getD 1 ""
    let existing_country := lines.getD 2 ""
    let new_city := new_location.getS "city"
    let new_state := new_location.getS "state"
    let new_country := new_location.getS "country"
    if existing_city = new_city ∧ existing_state = new_state ∧
        existing_country = new_country then false
    else true

/-- The location dict built from the first feature's `properties`
(src/worker.py lines 244-257): twelve keys, each `props.get(k, '')`. -/
def normalizeProps (props : LocationData) : LocationData :=
  [("country", props.getS "country"),
   ("state", props.getS "state"),
   ("county", props.getS "county"),
   ("city", props.getS "city"),
   ("suburb", props.getS "suburb"),
   ("district", props.getS "district"),
   ("street", props.getS "street"),
   ("housenumber", props.getS "housenumber"),
   ("postcode", props.getS "postcode"),
   ("name", props.getS "name"),
   ("locality", props.getS "locality"),
   ("countrycode", props.getS "countrycode")]

/-- Result of a `reverse_geocode` call. -/
structure ResolveResult where
  result : Option LocationData
  stats : Stats
  cache : GeocodingCache
  events : List Event
deriving DecidableEq

/-- `GeocodingWorker.reverse_geocode` (src/worker.py lines 218-268).
The hit test is Python truthiness on the cache's return value
(`if cached_data:`), the API-call counter is incremented before the
request is attempted, and `cache.set` runs only on a non-empty `features`
array. -/
def reverse_geocode (cache : GeocodingCache) (now : ℤ) (lat lon : ℚ)
    (http : HttpResult) (stats : Stats) : ResolveResult :=
  let cached_data := cache.get now lat lon
  if pyTruthy cached_data then
    { result := cached_data
      stats := { stats with cache_hits := stats.cache_hits + 1 }
      cache := cache
      events := [] }
  else
    let stats := { stats with api_calls := stats.api_calls + 1 }
    match http with
    | .exc =>
      { result := none, stats := stats, cache := cache, events := [.httpRequest] }
    | .ok features =>
      match features.head? with
      | none =>
        { result := none, stats := stats, cache := cache, events := [.httpRequest] }
      | some props =>
        let location_data := normalizeProps props
        let cache := cache.set now lat lon location_data
        { result := some location_data, stats := stats, cache := cache
          events := [.httpRequest] }

/-- `GeocodingWorker.write_location_data` (src/worker.py lines 270-365),
reduced to its statistics/trace effect: the argument-list construction is
not consulted by any claim and is elided.  `metadata_written` is counted on
exit code 0; the sidecar mirror write happens on success when a sidecar
exists; failures are logged only. -/
def write_location_data (writeResult : WriteResult) (xmpExists : Bool)
    (stats : Stats) : Stats × List Event :=
  match writeResult with
  | .exc => (stats, [.exifWrite])
  | .ok returncode =>
    if returncode = 0 then
      let stats := { stats with metadata_written := stats.metadata_written + 1 }
      if xmpExists then (stats, [.exifWrite, .exifSidecarWrite])
      else (stats, [.exifWrite])
    else (stats, [.exifWrite])

/-- Terminal outcome of `process_image` for one file (the state machine of
spec §4.4). -/
inductive Outcome
  | skippedAlreadyTagged
  | skippedNoGPS
  | noLocationFound
  | unchanged
  | written
deriving DecidableEq

/-- Result of a `process_image` call. -/
structure ProcessResult where
  outcome : Outcome
  stats : Stats
  cache : GeocodingCache
  events : List Event
deriving DecidableEq

/-- `GeocodingWorker.process_image` (src/worker.py lines 367-429).
The per-file log lines (dynamic f-strings) are elided from the trace; the
external-call markers and the statistics updates follow the source's
control flow: short-circuit `skip_existing and check…`, then the GPS read,
then `reverse_geocode`, the truthiness test `if not location:`,
`total_processed += 1`, the comparison, and the write. -/
def process_image (skip_existing : Bool) (env : WorkerEnv) (now : ℤ)
    (cache : GeocodingCache) (st : Stats) : ProcessResult :=
  if skip_existing && check_existing_location_data env.existingRead then
    { outcome := .skippedAlreadyTagged
      stats := { st with skipped_already_tagged := st.skipped_already_tagged + 1 }
      cache := cache
      events := [.exifExistingProbe] }
  else
    let preEvents : List Event :=
      if skip_existing then [.exifExistingProbe] else []
    match env.gpsResult with
    | none =>
      { outcome := .skippedNoGPS
        stats := { st with skipped_no_gps := st.skipped_no_gps + 1 }
        cache := cache
        events := preEvents ++ [.exifGpsRead] }
    | some (lat, lon) =>
      let r := reverse_geocode cache now lat lon env.httpResponse st
      let events := preEvents ++ [.exifGpsRead] ++ r.events
      if !pyTruthy r.result then
        { outcome := .noLocationFound, stats := r.stats, cache := r.cache
          events := events }
      else
        let location := r.result.getD []
        let st1 := { r.stats with total_processed := r.stats.total_processed + 1 }
        if !compare_location_data env.compareRead location then
          { outcome := .unchanged
            stats := { st1 with metadata_unchanged := st1.metadata_unchanged + 1 }
            cache := r.cache
            events := events ++ [.exifCompareRead] }
        else
          let w := write_location_data env.writeResult env.xmpExists st1
          { outcome := .written, stats := w.1, cache := r.cache
            events := events ++ [.exifCompareRead] ++ w.2 }

/-- The cooperative cancellation flag (`self.should_stop`, set by
`GeocodingWorker.stop`, src/worker.py lines 431-432) as observed at the
check before file index `i`: `some k` models a flag that became set after
`k` files had completed (so it reads true at every boundary `i ≥ k`, the
flag never being cleared); `none` models a run that is never cancelled. -/
def shouldStopAt : Option ℕ → ℕ → Bool
  | none, _ => false
  | some k, i => decide (k ≤ i)

/-- Specification-side fold: the cumulative statistics/cache effect of
processing a list of files in order with `process_image`. -/
def processFold (skip : Bool) (now : ℤ) (files : List WorkerEnv) (st : Stats)
    (c : GeocodingCache) : Stats × GeocodingCache :=
  files.foldl
    (fun acc f =>
      let r := process_image skip f now acc.2 acc.1
      (r.stats, r.cache))
    (st, c)

/-- The `for i, image_file in enumerate(image_files):` loop of
`GeocodingWorker.run` (src/worker.py lines 64-70): check the flag (break
with the cancelled log line when set), emit progress, process the file. -/
def runLoop (skip : Bool) (now : ℤ) (stopAt : Option ℕ) (total : ℕ) :
    List WorkerEnv → ℕ → Stats → GeocodingCache → List Event →
      Stats × GeocodingCache × List Event
  | [], _i, st, c, evs => (st, c, evs)
  | f :: rest, i, st, c, evs =>
    if shouldStopAt stopAt i then
      (st, c, evs ++ [.cancelCheck, .log "Abgebrochen."])
    else
      let r := process_image skip f now c st
      runLoop skip now stopAt total rest (i + 1) r.stats r.cache
        (evs ++ [.cancelCheck, .progress (i + 1) total] ++ r.events)

/-- Result of a whole `run`. -/
structure RunResult where
  stats : Stats
  cache : GeocodingCache
  events : List Event
deriving DecidableEq

/-- The cache-hit-rate log line (src/worker.py lines 83-85).  The source
formats `(hits / processed) * 100` with float formatting `:.1f`; the exact
decimal text of that one line is abstracted by this deterministic
rendering (no claim depends on its wording). -/
def cacheRateLine (hits processed : ℕ) : String :=
  "   Cache-Trefferquote: " ++ toString hits ++ "/" ++ toString processed

/-- The log lines `run` emits before the file loop (src/worker.py lines
45-62): the search line, the count line, the precision and lifetime lines,
the optional skip notice, and the separator. -/
def headerEvents (skip : Bool) (nFiles : ℕ) (cache : GeocodingCache) :
    List Event :=
  [.log "Suche nach Bilddateien...",
   .log (toString nFiles ++ " Bilddatei(en) gefunden."),
   .log ("Cache-Genauigkeit: " ++ cache.get_precision_info.name ++ " (" ++
     cache.get_precision_info.accuracy ++ ")"),
   .log ("Cache-Lebensdauer: " ++ toString cache.cache_max_age_days ++ " Tage")]
  ++ (if skip then [.log "⚡ Bereits getaggte Bilder werden übersprungen"] else [])
  ++ [.log (String.mk (List.replicate 60 '─'))]

/-- The statistics block, `cache_stats` signal, closing log and `finished`
signal `run` emits after the loop (src/worker.py lines 72-91). -/
def footerEvents (nFiles : ℕ) (st : Stats) : List Event :=
  [.log ("\n" ++ String.mk (List.replicate 60 '=')),
   .log "📊 Statistiken:",
   .log ("   Gefundene Dateien: " ++ toString nFiles),
   .log ("   Verarbeitete Dateien: " ++ toString st.total_processed),
   .log ("   Übersprungen (bereits getaggt): " ++ toString st.skipped_already_tagged),
   .log ("   Übersprungen (keine GPS): " ++ toString st.skipped_no_gps),
   .log ("   Cache-Treffer: " ++ toString st.cache_hits),
   .log ("   API-Aufrufe: " ++ toString st.api_calls),
   .log ("   Metadaten geschrieben: " ++ toString st.metadata_written),
   .log ("   Metadaten unverändert: " ++ toString st.metadata_unchanged)]
  ++ (if 0 < st.total_processed then [.log (cacheRateLine st.cache_hits st.total_processed)]
      else [])
  ++ [.log (String.mk (List.replicate 60 '=')), .cacheStatsEvt,
      .log "\nFertig!", .finished]

/-- `GeocodingWorker.run` (src/worker.py lines 43-94), success path.  The
file list is supplied as the per-file environments (`find_image_files` is a
plain filesystem walk, out of core scope).  The model is total, so the
`except` branch emitting an `error` event is unreachable and not rendered;
the `Event.error` constructor exists to express its absence from traces. -/
def run (skip : Bool) (now : ℤ) (stopAt : Option ℕ) (files : List WorkerEnv)
    (cache : GeocodingCache) : RunResult :=
  if files.isEmpty then
    { stats := initStats, cache := cache
      events := [.log "Suche nach Bilddateien...",
                 .log "Keine Bilddateien gefunden.", .finished] }
  else
    let out := runLoop skip now stopAt files.length files 0 initStats cache
      (headerEvents skip files.length cache)
    { stats := out.1, cache := out.2.1
      events := out.2.2 ++ footerEvents files.length out.1 }

/-!  Concrete fixtures used by witnesses, counterexamples and the
end-to-end scenario of the resolver claim.  Coordinates are written with
`Rat.mk'` (numerator, positive denominator, reducedness) so that they
evaluate by kernel reduction; the conjuncts of the scenario theorem relate
them to the decimal literals of the specification. -/

/-- A fresh cache: no entries, precision 5, 30-day lifetime. -/
def cacheEmpty : GeocodingCache :=
  { cache_file := "geocoding_cache.json", cache_data := []
    cache_max_age_days := 30, precision := 5, persisted := [], save_count := 0 }

/-- `48.85837` as an exact rational. -/
def latEiffel : ℚ := Rat.mk' 4885837 100000 (by norm_num) (by norm_num)

/-- `2.29448` as an exact rational (`229448/100000` reduced). -/
def lonEiffel : ℚ := Rat.mk' 28681 12500 (by norm_num) (by norm_num)

/-- A reverse-geocoding response feature's `properties` mapping. -/
def parisProps : LocationData :=
  [("country", "Frankreich"), ("city", "Paris"), ("name", "Tour Eiffel")]

/-- A reference instant (exactly 20000 days, in microseconds). -/
def tStart : ℤ := 1728000000000000

/-- One minute in microseconds. -/
def oneMinute : ℤ := 60000000

/-- Scenario step 1: resolve against the empty cache; the service answers
with one feature. -/
def resolveFirst : ResolveResult :=
  reverse_geocode cacheEmpty tStart latEiffel lonEiffel (.ok [parisProps]) initStats

/-- Scenario step 2: the same coordinates one minute later (the HTTP
environment is irrelevant on a hit; `.exc` shows no request is needed). -/
def resolveSecond : ResolveResult :=
  reverse_geocode resolveFirst.cache (tStart + oneMinute) latEiffel lonEiffel
    .exc resolveFirst.stats

/-- The derived key of the scenario coordinates at precision 5. -/
def keyEiffel : String := generate_cache_key 5 latEiffel lonEiffel

/-- An on-disk entry whose `timestamp` key is absent. -/
def entryNoTs : CacheEntry :=
  { timestamp := .missing, coordLat := 4885837, coordLon := 229448
    precision := 5, location_data := some [("city", "X")] }

/-- A cache holding exactly one entry with a missing timestamp. -/
def cacheMissingTs : GeocodingCache :=
  { cache_file := "geocoding_cache.json", cache_data := [("k1", entryNoTs)]
    cache_max_age_days := 30, precision := 5
    persisted := [("k1", entryNoTs)], save_count := 0 }

/-- An entry written at time 0 (far over the 30-day age at `tStart`). -/
def entryStale : CacheEntry :=
  { timestamp := .valid 0, coordLat := 4885837, coordLon := 229448
    precision := 5, location_data := some (normalizeProps parisProps) }

/-- A cache holding one stale entry under the scenario key. -/
def cacheStale : GeocodingCache :=
  { cache_file := "geocoding_cache.json", cache_data := [(keyEiffel, entryStale)]
    cache_max_age_days := 30, precision := 5
    persisted := [(keyEiffel, entryStale)], save_count := 0 }

/-- A fresh entry whose stored location record is the empty mapping. -/
def entryEmptyRec : CacheEntry :=
  { timestamp := .valid tStart, coordLat := 4885837, coordLon := 229448
    precision := 5, location_data := some [] }

/-- A cache holding one fresh entry with an empty location record. -/
def cacheEmptyRec : GeocodingCache :=
  { cache_file := "geocoding_cache.json", cache_data := [(keyEiffel, entryEmptyRec)]
    cache_max_age_days := 30, precision := 5
    persisted := [(keyEiffel, entryEmptyRec)], save_count := 0 }

/-- A per-file environment with no parsable GPS data. -/
def envNoGps : WorkerEnv :=
  { existingRead := .exc, gpsResult := none, httpResponse := .exc
    compareRead := .exc, writeResult := .exc, xmpExists := false }

/-- A per-file environment whose existing-location probe prints a city. -/
def envTagged : WorkerEnv :=
  { existingRead := .ok 0 "Paris\n", gpsResult := some (latEiffel, lonEiffel)
    httpResponse := .exc, compareRead := .exc, writeResult := .exc
    xmpExists := false }

/-- A per-file environment with GPS data whose resolve attempt fails. -/
def envGpsNoLoc : WorkerEnv :=
  { existingRead := .exc, gpsResult := some (latEiffel, lonEiffel)
    httpResponse := .exc, compareRead := .exc, writeResult := .exc
    xmpExists := false }

/-- Five GPS-less files, for the cancellation witness. -/
def fiveFiles : List WorkerEnv :=
  [envNoGps, envNoGps, envNoGps, envNoGps, envNoGps]

/-- `1.000001` as an exact rational. -/
def latNearOne : ℚ := Rat.mk' 1000001 1000000 (by norm_num) (by norm_num)

/-- `1.0000014` as an exact rational (`10000014/10000000` reduced). -/
def latNearOne' : ℚ := Rat.mk' 5000007 5000000 (by norm_num) (by norm_num)

/-- `2` as an exact rational. -/
def lonTwo : ℚ := Rat.mk' 2 1 (by norm_num) (by norm_num)

/-- A one-field location record for the round-trip witness. -/
def recParisCity : LocationData := [("city", "Paris")]

/-- The events a single `process_image` call can put into the trace: the
external-call markers only — never a Qt signal (`finished`, `error`,
`cache_stats`) and never a cancellation-flag check. -/
def eventIsExternal : Event → Bool
  | .exifExistingProbe => true
  | .exifGpsRead => true
  | .httpRequest => true
  | .exifCompareRead => true
  | .exifWrite => true
  | .exifSidecarWrite => true
  | _ => false

/-!  Helper lemmas (shared infrastructure; none of these is a claim's
theorem, witness or counterexample). -/

theorem lookupEntry_updateEntry_self (k : String) (v : CacheEntry)
    (l : List (String × CacheEntry)) :
    lookupEntry k (updateEntry k v l) = some v := by
  induction l with
  | nil => simp [updateEntry, lookupEntry]
  | cons kv rest ih =>
    obtain ⟨k', v'⟩ := kv
    by_cases h : k' = k
    · simp [updateEntry, lookupEntry, h]
    · simp [updateEntry, lookupEntry, h, ih]

theorem lookupEntry_mem {k : String} {e : CacheEntry}
    {l : List (String × CacheEntry)} (h : lookupEntry k l = some e) :
    (k, e) ∈ l := by
  induction l with
  | nil => simp [lookupEntry] at h
  | cons kv rest ih =>
    obtain ⟨k', v'⟩ := kv
    by_cases hk : k' = k
    · subst hk
      simp [lookupEntry] at h
      subst h
      exact List.mem_cons_self _ _
    · simp [lookupEntry, hk] at h
      exact List.mem_cons_of_mem _ (ih h)

theorem countP_add_countP_not {α : Type} (p : α → Bool) (l : List α) :
    l.countP p + l.countP (fun a => !p a) = l.length := by
  induction l with
  | nil => simp
  | cons a l ih =>
    by_cases h : p a <;> simp [List.countP_cons, h] <;> omega

theorem overAge_withinAge_partition (m now : ℤ) (l : List (String × CacheEntry)) :
    l.countP (fun kv => entryWithinAge m now kv.2)
      + l.countP (fun kv => entryOverAge m now kv.2)
      + l.countP (fun kv => decide (kv.2.timestamp = TimestampField.missing))
      = l.length := by
  induction l with
  | nil => simp
  | cons kv rest ih =>
    rcases h : kv.2.timestamp with _ | s | t
    · have hw : entryWithinAge m now kv.2 = false := by simp [entryWithinAge, h]
      have ho : entryOverAge m now kv.2 = false := by simp [entryOverAge, h]
      have hm : decide (kv.2.timestamp = TimestampField.missing) = true := by simp [h]
      simp only [List.countP_cons, List.length_cons, hw, ho, hm]
      simp
      omega
    · have hw : entryWithinAge m now kv.2 = false := by simp [entryWithinAge, h]
      have ho : entryOverAge m now kv.2 = true := by simp [entryOverAge, h]
      have hm : decide (kv.2.timestamp = TimestampField.missing) = false := by simp [h]
      simp only [List.countP_cons, List.length_cons, hw, ho, hm]
      simp
      omega
    · have hm : decide (kv.2.timestamp = TimestampField.missing) = false := by simp [h]
      rcases le_or_lt (now - t) (m * microsecondsPerDay) with hle | hlt
      · have hw : entryWithinAge m now kv.2 = true := by
          simp [entryWithinAge, h]
          omega
        have ho : entryOverAge m now kv.2 = false := by
          simp [entryOverAge, h]
          omega
        simp only [List.countP_cons, List.length_cons, hw, ho, hm]
        simp
        omega
      · have hw : entryWithinAge m now kv.2 = false := by
          simp [entryWithinAge, h]
          omega
        have ho : entryOverAge m now kv.2 = true := by
          simp [entryOverAge, h]
          omega
        simp only [List.countP_cons, List.length_cons, hw, ho, hm]
        simp
        omega

theorem clear_old_entries_snd_cache_data (c : GeocodingCache) (now : ℤ)
    (arg : Option ℤ) :
    ((c.clear_old_entries now arg).2).cache_data
      = c.cache_data.filter
          (fun kv => !entryOverAge (arg.getD c.cache_max_age_days) now kv.2) := by
  simp only [GeocodingCache.clear_old_entries]
  split <;> simp [GeocodingCache.save_cache]

theorem clear_old_entries_fst (c : GeocodingCache) (now : ℤ) (arg : Option ℤ) :
    (c.clear_old_entries now arg).1
      = c.cache_data.countP
          (fun kv => entryOverAge (arg.getD c.cache_max_age_days) now kv.2) := by
  simp only [GeocodingCache.clear_old_entries]
  split <;> simp [List.countP_eq_length_filter]

theorem reverse_geocode_miss (cache : GeocodingCache) (now : ℤ) (lat lon : ℚ)
    (http : HttpResult) (st : Stats)
    (h : pyTruthy (cache.get now lat lon) = false) :
    (reverse_geocode cache now lat lon http st).stats.api_calls = st.api_calls + 1
    ∧ (reverse_geocode cache now lat lon http st).stats.cache_hits = st.cache_hits
    ∧ (reverse_geocode cache now lat lon http st).events.count Event.httpRequest = 1 := by
  cases http with
  | exc => simp [reverse_geocode, h]
  | ok features =>
    cases features with
    | nil => simp [reverse_geocode, h]
    | cons p rest => simp [reverse_geocode, h]

theorem reverse_geocode_events_sub (cache : GeocodingCache) (now : ℤ)
    (lat lon : ℚ) (http : HttpResult) (st : Stats) :
    (reverse_geocode cache now lat lon http st).events = []
    ∨ (reverse_geocode cache now lat lon http st).events = [Event.httpRequest] := by
  by_cases h : pyTruthy (cache.get now lat lon)
  · left
    simp [reverse_geocode, h]
  · right
    cases http with
    | exc => simp [reverse_geocode, h]
    | ok features => cases features <;> simp [reverse_geocode, h]

theorem reverse_geocode_total_processed (cache : GeocodingCache) (now : ℤ)
    (lat lon : ℚ) (http : HttpResult) (st : Stats) :
    (reverse_geocode cache now lat lon http st).stats.total_processed
      = st.total_processed := by
  by_cases h : pyTruthy (cache.get now lat lon)
  · simp [reverse_geocode, h]
  · cases http with
    | exc => simp [reverse_geocode, h]
    | ok features => cases features <;> simp [reverse_geocode, h]

theorem write_location_data_events (wr : WriteResult) (x : Bool) (st : Stats) :
    (write_location_data wr x st).2 = [Event.exifWrite]
    ∨ (write_location_data wr x st).2 = [Event.exifWrite, Event.exifSidecarWrite] := by
  cases wr with
  | exc => left; rfl
  | ok rc =>
    by_cases h : rc = 0
    · cases x <;> simp [write_location_data, h]
    · left
      simp [write_location_data, h]

theorem reverse_geocode_events_external (cache : GeocodingCache) (now : ℤ)
    (lat lon : ℚ) (http : HttpResult) (st : Stats) :
    ∀ e ∈ (reverse_geocode cache now lat lon http st).events,
      eventIsExternal e = true := by
  intro e he
  rcases reverse_geocode_events_sub cache now lat lon http st with h | h <;>
    rw [h] at he <;> simp at he
  simp [he, eventIsExternal]

theorem write_location_data_events_external (wr : WriteResult) (x : Bool)
    (st : Stats) :
    ∀ e ∈ (write_location_data wr x st).2, eventIsExternal e = true := by
  intro e he
  rcases write_location_data_events wr x st with h | h <;> rw [h] at he <;>
    simp at he
  · simp [he, eventIsExternal]
  · rcases he with he | he <;> simp [he, eventIsExternal]

theorem process_image_events_external (skip : Bool) (env : WorkerEnv) (now : ℤ)
    (cache : GeocodingCache) (st : Stats) :
    ∀ e ∈ (process_image skip env now cache st).events, eventIsExternal e = true := by
  intro e he
  have hpre : ∀ x ∈ (if skip = true then [Event.exifExistingProbe] else []),
      eventIsExternal x = true := by
    cases skip <;> simp [eventIsExternal]
  simp only [process_image] at he
  split at he
  · simp at he
    simp [he, eventIsExternal]
  · split at he
    · rcases List.mem_append.mp he with h | h
      · exact hpre e h
      · simp at h
        simp [h, eventIsExternal]
    · rename_i lat lon hgps
      split at he
      · rcases List.mem_append.mp he with h | h
        · rcases List.mem_append.mp h with h' | h'
          · exact hpre e h'
          · simp at h'
            simp [h', eventIsExternal]
        · exact reverse_geocode_events_external cache now lat lon env.httpResponse st e h
      · split at he
        · rcases List.mem_append.mp he with h | h
          · rcases List.mem_append.mp h with h' | h'
            · rcases List.mem_append.mp h' with h'' | h''
              · exact hpre e h''
              · simp at h''
                simp [h'', eventIsExternal]
            · exact reverse_geocode_events_external cache now lat lon env.httpResponse st e h'
          · simp at h
            simp [h, eventIsExternal]
        · rcases List.mem_append.mp he with h | h
          · rcases List.mem_append.mp h with h' | h'
            · rcases List.mem_append.mp h' with h'' | h''
              · rcases List.mem_append.mp h'' with h3 | h3
                · exact hpre e h3
                · simp at h3
                  simp [h3, eventIsExternal]
              · exact reverse_geocode_events_external cache now lat lon env.httpResponse st e h''
            · simp at h'
              simp [h', eventIsExternal]
          · exact write_location_data_events_external env.writeResult env.xmpExists _ e h

theorem events_external_no_signals {l : List Event}
    (hall : ∀ e ∈ l, eventIsExternal e = true) :
    l.count Event.cancelCheck = 0 ∧ l.count Event.finished = 0
    ∧ ∀ s, Event.error s ∉ l := by
  refine ⟨List.count_eq_zero.mpr ?_, List.count_eq_zero.mpr ?_, ?_⟩
  · intro hmem
    have := hall _ hmem
    simp [eventIsExternal] at this
  · intro hmem
    have := hall _ hmem
    simp [eventIsExternal] at this
  · intro s hmem
    have := hall _ hmem
    simp [eventIsExternal] at this

theorem runLoop_cancelled (skip : Bool) (now : ℤ) (k total : ℕ) :
    ∀ (l : List WorkerEnv) (i : ℕ) (st : Stats) (c : GeocodingCache)
      (evs : List Event), i ≤ k → k - i < l.length →
      ∃ tail : List Event,
        runLoop skip now (some k) total l i st c evs =
          ((processFold skip now (l.take (k - i)) st c).1,
           (processFold skip now (l.take (k - i)) st c).2,
           evs ++ tail)
        ∧ tail.count Event.cancelCheck = (k - i) + 1
        ∧ tail.count Event.finished = 0
        ∧ (∀ s, Event.error s ∉ tail)
        ∧ Event.log "Abgebrochen." ∈ tail := by
  intro l
  induction l with
  | nil =>
    intro i st c evs hik hlen
    simp at hlen
  | cons f rest ih =>
    intro i st c evs hik hlen
    by_cases hstop : k ≤ i
    · have h0 : k - i = 0 := by omega
      refine ⟨[Event.cancelCheck, Event.log "Abgebrochen."], ?_, ?_, ?_, ?_, ?_⟩
      · simp [runLoop, shouldStopAt, hstop, h0, processFold]
      · simp [List.count_cons]
        omega
      · simp [List.count_cons]
      · intro s
        simp
      · simp
    · have hlen' : k - (i + 1) < rest.length := by
        simp only [List.length_cons] at hlen
        omega
      obtain ⟨tail, heq, hcc, hfin, herr, hlog⟩ :=
        ih (i + 1) (process_image skip f now c st).stats
          (process_image skip f now c st).cache
          (evs ++ [Event.cancelCheck, Event.progress (i + 1) total]
            ++ (process_image skip f now c st).events)
          (by omega) hlen'
      obtain ⟨hpcc, hpfin, hperr⟩ :=
        events_external_no_signals (process_image_events_external skip f now c st)
      refine ⟨[Event.cancelCheck, Event.progress (i + 1) total]
          ++ (process_image skip f now c st).events ++ tail, ?_, ?_, ?_, ?_, ?_⟩
      · have hstep : runLoop skip now (some k) total (f :: rest) i st c evs =
            runLoop skip now (some k) total rest (i + 1)
              (process_image skip f now c st).stats
              (process_image skip f now c st).cache
              (evs ++ [Event.cancelCheck, Event.progress (i + 1) total]
                ++ (process_image skip f now c st).events) := by
          simp [runLoop, shouldStopAt, hstop]
        have htake : (f :: rest).take (k - i) = f :: rest.take (k - (i + 1)) := by
          have hki : k - i = (k - (i + 1)) + 1 := by omega
          rw [hki]
          rfl
        have hfold : processFold skip now ((f :: rest).take (k - i)) st c =
            processFold skip now (rest.take (k - (i + 1)))
              (process_image skip f now c st).stats
              (process_image skip f now c st).cache := by
          rw [htake]
          simp [processFold]
        rw [hstep, heq, hfold]
        simp [List.append_assoc]
      · simp [List.count_append, List.count_cons, hcc, hpcc]
        omega
      · simp [List.count_append, List.count_cons, hfin, hpfin]
      · intro s
        simp [List.mem_append, hperr s, herr s]
      · exact List.mem_append.mpr (Or.inr hlog)

theorem headerEvents_no_signals (skip : Bool) (n : ℕ) (cache : GeocodingCache) :
    (headerEvents skip n cache).count Event.cancelCheck = 0
    ∧ (headerEvents skip n cache).count Event.finished = 0
    ∧ ∀ s, Event.error s ∉ headerEvents skip n cache := by
  cases skip <;>
    simp [headerEvents, List.count_append, List.count_cons, beq_iff_eq]

theorem footerEvents_signals (n : ℕ) (st : Stats) :
    (footerEvents n st).count Event.cancelCheck = 0
    ∧ (footerEvents n st).count Event.finished = 1
    ∧ ∀ s, Event.error s ∉ footerEvents n st := by
  by_cases h : 0 < st.total_processed <;>
    simp [footerEvents, h, List.count_append, List.count_cons, beq_iff_eq]

/-- C8: the cancellation flag is checked once per file boundary and never
inside a file's processing (every per-file event is an external-call
marker, so `cancelCheck` markers appear only at boundaries, `k + 1` of
them when the flag was set after `k` files); with the flag set after `k`
of `n` files, exactly the first `k` files are processed — the run's final
statistics and cache are the fold of `process_image` over `files.take k`,
with nothing rolled back — the run logs `Abgebrochen.`, emits `finished`
exactly once, and emits no `error` event. -/
theorem run_cancellation (skip : Bool) (now : ℤ) (files : List WorkerEnv)
    (cache : GeocodingCache) (k : ℕ) (hk : k < files.length) :
    ((run skip now (some k) files cache).stats,
        (run skip now (some k) files cache).cache)
      = processFold skip now (files.take k) initStats cache
    ∧ (run skip now (some k) files cache).events.count Event.finished = 1
    ∧ (∀ s, Event.error s ∉ (run skip now (some k) files cache).events)
    ∧ Event.log "Abgebrochen." ∈ (run skip now (some k) files cache).events
    ∧ (run skip now (some k) files cache).events.count Event.cancelCheck
        = k + 1 := by
  have hne : files.isEmpty = false := by
    cases files with
    | nil => simp at hk
    | cons a l => rfl
  obtain ⟨tail, heq, hcc, hfin, herr, hlog⟩ :=
    runLoop_cancelled skip now k files.length files 0 initStats cache
      (headerEvents skip files.length cache) (Nat.zero_le k) (by simpa using hk)
  rw [Nat.sub_zero] at heq hcc
  obtain ⟨hhcc, hhfin, hherr⟩ := headerEvents_no_signals skip files.length cache
  obtain ⟨hfcc, hffin, hferr⟩ :=
    footerEvents_signals files.length
      (processFold skip now (files.take k) initStats cache).1
  have hrun : run skip now (some k) files cache =
      { stats := (processFold skip now (files.take k) initStats cache).1
        cache := (processFold skip now (files.take k) initStats cache).2
        events := (headerEvents skip files.length cache ++ tail)
          ++ footerEvents files.length
              (processFold skip now (files.take k) initStats cache).1 } := by
    simp only [run, hne, Bool.false_eq_true, if_false]
    rw [heq]
  refine ⟨?_, ?_, ?_, ?_, ?_⟩
  · rw [hrun]
  · rw [hrun]
    simp [List.count_append, hhfin, hfin, hffin]
  · intro s
    rw [hrun]
    simp [List.mem_append, hherr s, herr s, hferr s]
  · rw [hrun]
    simp only [List.append_assoc, List.mem_append]
    exact Or.inr (Or.inl hlog)
  · rw [hrun]
    simp [List.count_append, hhcc, hcc, hfcc]

theorem clear_old_entries_persistence (c : GeocodingCache) (now : ℤ)
    (arg : Option ℤ) :
    ((c.clear_old_entries now arg).2).save_count
        = c.save_count + (if (c.clear_old_entries now arg).1 = 0 then 0 else 1)
    ∧ ((c.clear_old_entries now arg).2).persisted
        = (if (c.clear_old_entries now arg).1 = 0 then c.persisted
           else ((c.clear_old_entries now arg).2).cache_data) := by
  simp only [GeocodingCache.clear_old_entries]
  split
  · rename_i h
    rw [List.isEmpty_iff] at h
    simp [h]
  · rename_i h
    rw [List.isEmpty_iff] at h
    have h1 : (List.map (fun kv => kv.1)
        (List.filter (fun kv => entryOverAge (arg.getD c.cache_max_age_days) now kv.2)
          c.cache_data)).length ≠ 0 := by
      intro h0
      exact h (List.length_eq_zero.mp h0)
    simp [GeocodingCache.save_cache, if_neg h1]

/-- C1 counterexample: a store whose single entry lacks a `timestamp`.
The claim says such an entry counts as expired and is deleted by
`purgeExpired`; the code's `if timestamp_str:` guard skips it, so
`clear_old_entries` deletes nothing, returns 0 and leaves the store (and
`stats().total`) unchanged. -/
theorem clear_old_entries_missing_ts_counterexample :
    entryNoTs.timestamp = TimestampField.missing
    ∧ (cacheMissingTs.clear_old_entries tStart none).1 = 0
    ∧ ((cacheMissingTs.clear_old_entries tStart none).2).cache_data
        = cacheMissingTs.cache_data
    ∧ (((cacheMissingTs.clear_old_entries tStart none).2).get_stats tStart).total
        = (cacheMissingTs.get_stats tStart).total := by
  decide

/-- C1 (amended): for every cache state, instant and threshold argument,
`clear_old_entries` deletes exactly the entries that carry a timestamp and
are expired (age over the threshold, or an unparseable timestamp) — an
entry with a missing timestamp is retained, not treated as expired —
returns the number of deletions, flushes the store exactly once when the
count is nonzero and not at all otherwise, and a subsequent
`stats().total` is smaller by exactly the returned count. -/
theorem clear_old_entries_spec (c : GeocodingCache) (now : ℤ) (arg : Option ℤ) :
    (c.clear_old_entries now arg).1
      = c.cache_data.countP
          (fun kv => entryOverAge (arg.getD c.cache_max_age_days) now kv.2)
    ∧ (∀ kv, kv ∈ ((c.clear_old_entries now arg).2).cache_data
        ↔ kv ∈ c.cache_data
          ∧ entryOverAge (arg.getD c.cache_max_age_days) now kv.2 = false)
    ∧ (((c.clear_old_entries now arg).2).get_stats now).total
          + (c.clear_old_entries now arg).1
        = (c.get_stats now).total
    ∧ ((c.clear_old_entries now arg).2).save_count
        = c.save_count + (if (c.clear_old_entries now arg).1 = 0 then 0 else 1)
    ∧ ((c.clear_old_entries now arg).2).persisted
        = (if (c.clear_old_entries now arg).1 = 0 then c.persisted
           else ((c.clear_old_entries now arg).2).cache_data) := by
  have hfst := clear_old_entries_fst c now arg
  have hsnd := clear_old_entries_snd_cache_data c now arg
  refine ⟨hfst, ?_, ?_, (clear_old_entries_persistence c now arg).1,
    (clear_old_entries_persistence c now arg).2⟩
  · intro kv
    rw [hsnd, List.mem_filter]
    simp
  · have htot : ∀ x : GeocodingCache, (x.get_stats now).total = x.cache_data.length :=
      fun x => rfl
    rw [htot, htot, hsnd, hfst, ← List.countP_eq_length_filter]
    have hsum := countP_add_countP_not
      (fun kv => entryOverAge (arg.getD c.cache_max_age_days) now kv.2) c.cache_data
    omega

/-- C2 counterexample: a cache whose single entry has no timestamp:
`get` would reject the entry (return absent), but the stats scan counts it
in `total` while classifying it as neither `valid` nor `expired`, so
`total = valid + expired` fails (1 ≠ 0 + 0). -/
theorem get_stats_missing_ts_counterexample :
    (cacheMissingTs.get_stats tStart).total = 1
    ∧ (cacheMissingTs.get_stats tStart).valid = 0
    ∧ (cacheMissingTs.get_stats tStart).expired = 0 := by
  decide

/-- C2 (amended): the stats snapshot classifies each entry that carries a
timestamp by the same age rule `get` applies (an entry is counted `valid`
exactly under the freshness condition under which `get` would return its
stored record, `expired` exactly when the timestamp is over-age or
unparseable); an entry with a missing timestamp is counted in `total` but
in neither class, so `total = valid + expired + #missing-timestamp`. -/
theorem get_stats_classification (c : GeocodingCache) (now : ℤ) :
    (c.get_stats now).total
        = (c.get_stats now).valid + (c.get_stats now).expired
          + c.cache_data.countP
              (fun kv => decide (kv.2.timestamp = TimestampField.missing))
    ∧ (c.get_stats now).valid
        = c.cache_data.countP
            (fun kv => entryWithinAge c.cache_max_age_days now kv.2)
    ∧ (c.get_stats now).expired
        = c.cache_data.countP
            (fun kv => entryOverAge c.cache_max_age_days now kv.2)
    ∧ ∀ lat lon : ℚ,
        c.get now lat lon
          = (match lookupEntry (generate_cache_key c.precision lat lon)
                c.cache_data with
             | none => none
             | some e =>
               if entryWithinAge c.cache_max_age_days now e = true
               then e.location_data else none) := by
  refine ⟨?_, rfl, rfl, ?_⟩
  · have hpart := overAge_withinAge_partition c.cache_max_age_days now c.cache_data
    have hv : (c.get_stats now).valid
        = c.cache_data.countP
            (fun kv => entryWithinAge c.cache_max_age_days now kv.2) := rfl
    have he : (c.get_stats now).expired
        = c.cache_data.countP
            (fun kv => entryOverAge c.cache_max_age_days now kv.2) := rfl
    have ht : (c.get_stats now).total = c.cache_data.length := rfl
    rw [hv, he, ht]
    omega
  · intro lat lon
    simp only [GeocodingCache.get]
    cases h : lookupEntry (generate_cache_key c.precision lat lon) c.cache_data with
    | none => rfl
    | some e =>
      cases ht : e.timestamp with
      | missing => simp [entryWithinAge, ht]
      | unparseable s => simp [entryWithinAge, ht]
      | valid t =>
        have hw : entryWithinAge c.cache_max_age_days now e
            = decide (now - t ≤ c.cache_max_age_days * microsecondsPerDay) := by
          simp [entryWithinAge, ht]
        simp only [ht, hw, decide_eq_true_eq]
        split_ifs with h1 h2 <;> first | rfl | omega

/-- C3 counterexample: the external tool signals failure (exit code 1,
empty output) and the candidate record is empty; the claim says the read
failed so `differs` must return true (write needed), but the code never
consults the exit code: it parses the empty output as three empty fields,
finds them equal to the empty candidate, and returns false. -/
theorem compare_location_data_exit_code_counterexample :
    compare_location_data (ExifReadResult.ok 1 "") [] = false := by
  decide

/-- C3 (amended): `differs` (compare_location_data) returns false exactly
when the subprocess completed (no exception) and the city, state and
country read positionally from its stripped stdout (missing lines as
empty) equal the candidate's city, state and country (missing keys as
empty); it returns true when any of the three differ or when the read
raised (timeout, tool not found, any other exception).  The tool's exit
code is ignored: completed runs with equal outputs compare equal no matter
the exit status. -/
theorem compare_location_data_spec :
    (∀ nl : LocationData, compare_location_data .exc nl = true)
    ∧ (∀ (rc : ℤ) (out : String) (nl : LocationData),
        compare_location_data (.ok rc out) nl = false ↔
          ((pySplitNl (pyStrip out)).getD 0 "" = nl.getS "city"
            ∧ (pySplitNl (pyStrip out)).getD 1 "" = nl.getS "state"
            ∧ (pySplitNl (pyStrip out)).getD 2 "" = nl.getS "country"))
    ∧ (∀ (rc rc' : ℤ) (out : String) (nl : LocationData),
        compare_location_data (.ok rc out) nl
          = compare_location_data (.ok rc' out) nl) := by
  refine ⟨fun nl => rfl, ?_, fun rc rc' out nl => rfl⟩
  intro rc out nl
  simp only [compare_location_data]
  split_ifs with h
  · exact iff_of_true rfl h
  · exact iff_of_false (by simp) h

/-- C5: two coordinate pairs whose latitudes round to the same value and
whose longitudes round to the same value at the active precision derive
the identical cache key, so every lookup (`cache.get`) treats them as the
same entry, regardless of the original full-precision values. -/
theorem cache_key_collision (p : ℕ) (lat1 lon1 lat2 lon2 : ℚ)
    (c : GeocodingCache) (now : ℤ) (hp : c.precision = p)
    (hlat : scaledRound lat1 p = scaledRound lat2 p)
    (hlon : scaledRound lon1 p = scaledRound lon2 p) :
    generate_cache_key p lat1 lon1 = generate_cache_key p lat2 lon2
    ∧ c.get now lat1 lon1 = c.get now lat2 lon2 := by
  have hk : generate_cache_key p lat1 lon1 = generate_cache_key p lat2 lon2 := by
    simp only [generate_cache_key, hlat, hlon]
  refine ⟨hk, ?_⟩
  simp only [GeocodingCache.get, hp, hk]

/-- C5 witness: `1.000001` and `1.0000014` both round to `1.0` at
precision 5; paired with the same longitude they produce the identical key
and identical lookups on a concrete cache. -/
theorem cache_key_collision_witness :
    (cacheEmpty.precision = 5
      ∧ scaledRound latNearOne 5 = scaledRound latNearOne' 5
      ∧ scaledRound lonTwo 5 = scaledRound lonTwo 5)
    ∧ (generate_cache_key 5 latNearOne lonTwo
          = generate_cache_key 5 latNearOne' lonTwo
      ∧ cacheEmpty.get tStart latNearOne lonTwo
          = cacheEmpty.get tStart latNearOne' lonTwo) :=
  ⟨⟨by decide, by decide, by decide⟩,
   cache_key_collision 5 latNearOne lonTwo latNearOne' lonTwo cacheEmpty tStart
     (by decide) (by decide) (by decide)⟩

/-- C6: `put` (set) followed immediately by `get` with the same
coordinates returns the stored record, provided the precision is unchanged
in between (the same cache state is used, and `set` does not touch the
precision) and the configured max age is positive. -/
theorem set_get_roundtrip (c : GeocodingCache) (now : ℤ) (lat lon : ℚ)
    (ld : LocationData) (hpos : 0 < c.cache_max_age_days) :
    (c.set now lat lon ld).get now lat lon = some ld := by
  have hl := lookupEntry_updateEntry_self (generate_cache_key c.precision lat lon)
    { timestamp := .valid now
      coordLat := scaledRound lat c.precision
      coordLon := scaledRound lon c.precision
      precision := c.precision
      location_data := some ld } c.cache_data
  simp only [GeocodingCache.set, GeocodingCache.save_cache, GeocodingCache.get, hl]
  have hne : ¬ c.cache_max_age_days * microsecondsPerDay < now - now := by
    simp only [microsecondsPerDay]
    omega
  simp [hne]
  simp only [microsecondsPerDay]
  omega

/-- C6 witness: storing a record for the scenario coordinates in the fresh
cache and reading it back immediately returns exactly that record. -/
theorem set_get_roundtrip_witness :
    0 < cacheEmpty.cache_max_age_days
    ∧ (cacheEmpty.set tStart latEiffel lonEiffel recParisCity).get tStart
        latEiffel lonEiffel = some recParisCity :=
  ⟨by decide,
   set_get_roundtrip cacheEmpty tStart latEiffel lonEiffel recParisCity (by decide)⟩

/-- C9: an entry whose parsed timestamp is older than the max age is
excluded from `get` (absent is returned) and counted as `expired` by
`get_stats`, yet it remains in the store — `get` and `get_stats` are pure
readers in the embedding, mirroring that the source methods never delete —
and only `clear_old_entries` removes it. -/
theorem get_expired_frame (c : GeocodingCache) (now : ℤ) (lat lon : ℚ)
    (e : CacheEntry) (t : ℤ)
    (hlook : lookupEntry (generate_cache_key c.precision lat lon) c.cache_data
      = some e)
    (ht : e.timestamp = TimestampField.valid t)
    (hage : c.cache_max_age_days * microsecondsPerDay < now - t) :
    c.get now lat lon = none
    ∧ 0 < (c.get_stats now).expired
    ∧ (generate_cache_key c.precision lat lon, e) ∈ c.cache_data
    ∧ (generate_cache_key c.precision lat lon, e)
        ∉ ((c.clear_old_entries now none).2).cache_data := by
  have hmem := lookupEntry_mem hlook
  have hover : entryOverAge c.cache_max_age_days now e = true := by
    simp [entryOverAge, ht]
    omega
  refine ⟨?_, ?_, hmem, ?_⟩
  · simp only [GeocodingCache.get, hlook, ht]
    simp [hage]
  · have he : (c.get_stats now).expired
        = c.cache_data.countP
            (fun kv => entryOverAge c.cache_max_age_days now kv.2) := rfl
    rw [he]
    exact List.countP_pos_iff.mpr ⟨_, hmem, hover⟩
  · rw [clear_old_entries_snd_cache_data]
    intro hmem'
    rw [List.mem_filter] at hmem'
    simp [hover] at hmem'

/-- C9 witness: a concrete cache holding one entry written at time 0,
inspected 20000 days later with a 30-day lifetime. -/
theorem get_expired_frame_witness :
    (lookupEntry (generate_cache_key cacheStale.precision latEiffel lonEiffel)
        cacheStale.cache_data = some entryStale
      ∧ entryStale.timestamp = TimestampField.valid 0
      ∧ cacheStale.cache_max_age_days * microsecondsPerDay < tStart - 0)
    ∧ (cacheStale.get tStart latEiffel lonEiffel = none
      ∧ 0 < (cacheStale.get_stats tStart).expired
      ∧ (generate_cache_key cacheStale.precision latEiffel lonEiffel, entryStale)
          ∈ cacheStale.cache_data
      ∧ (generate_cache_key cacheStale.precision latEiffel lonEiffel, entryStale)
          ∉ ((cacheStale.clear_old_entries tStart none).2).cache_data) :=
  ⟨⟨by decide, by decide, by decide⟩,
   get_expired_frame cacheStale tStart latEiffel lonEiffel entryStale 0
     (by decide) (by decide) (by decide)⟩

/-- C4: on a cache hit (the code's hit test: the cache's return value is
truthy) the cached record is returned verbatim, `cache_hits` rises by one,
the cache is untouched and no HTTP request appears in the trace; on a miss
`api_calls` rises by one and exactly one HTTP request is issued.  The
end-to-end scenario: from the empty cache (precision 5, max age 30 days),
resolving (48.85837, 2.29448) issues exactly one HTTP request and stores
one entry under the key of the coordinates rounded to 5 decimals; the same
resolve one minute later issues zero HTTP requests, is counted as a cache
hit, and returns the stored record. -/
theorem resolve_cache_contract :
    (∀ (cache : GeocodingCache) (now : ℤ) (lat lon : ℚ) (http : HttpResult)
        (st : Stats), pyTruthy (cache.get now lat lon) = true →
        reverse_geocode cache now lat lon http st =
          { result := cache.get now lat lon
            stats := { st with cache_hits := st.cache_hits + 1 }
            cache := cache
            events := [] })
    ∧ (∀ (cache : GeocodingCache) (now : ℤ) (lat lon : ℚ) (http : HttpResult)
        (st : Stats), pyTruthy (cache.get now lat lon) = false →
        (reverse_geocode cache now lat lon http st).stats.api_calls
            = st.api_calls + 1
        ∧ (reverse_geocode cache now lat lon http st).stats.cache_hits
            = st.cache_hits
        ∧ (reverse_geocode cache now lat lon http st).events.count
            Event.httpRequest = 1)
    ∧ (latEiffel = 48.85837 ∧ lonEiffel = 2.29448
      ∧ resolveFirst.events.count Event.httpRequest = 1
      ∧ resolveFirst.cache.cache_data.length = 1
      ∧ (lookupEntry keyEiffel resolveFirst.cache.cache_data).isSome = true
      ∧ resolveSecond.events.count Event.httpRequest = 0
      ∧ resolveSecond.result = some (normalizeProps parisProps)
      ∧ resolveSecond.stats.cache_hits = resolveFirst.stats.cache_hits + 1
      ∧ resolveSecond.stats.api_calls = resolveFirst.stats.api_calls) := by
  refine ⟨?_, ?_, ?_, ?_, ?_⟩
  · intro cache now lat lon http st h
    simp [reverse_geocode, h]
  · intro cache now lat lon http st h
    exact ⟨(reverse_geocode_miss cache now lat lon http st h).1,
      (reverse_geocode_miss cache now lat lon http st h).2.1,
      (reverse_geocode_miss cache now lat lon http st h).2.2⟩
  · rw [latEiffel, Rat.mk'_eq_divInt, Rat.divInt_eq_div]
    norm_num
  · rw [lonEiffel, Rat.mk'_eq_divInt, Rat.divInt_eq_div]
    norm_num
  · exact ⟨by decide, by decide, by decide, by decide, by decide, by decide,
      by decide⟩

/-- C4 witness: the hit clause applied to the scenario cache one minute
after the store, and the miss clause applied to the empty cache. -/
theorem resolve_cache_contract_witness :
    (pyTruthy (resolveFirst.cache.get (tStart + oneMinute) latEiffel lonEiffel)
        = true
      ∧ reverse_geocode resolveFirst.cache (tStart + oneMinute) latEiffel
          lonEiffel .exc resolveFirst.stats =
        { result := resolveFirst.cache.get (tStart + oneMinute) latEiffel lonEiffel
          stats := { resolveFirst.stats with
            cache_hits := resolveFirst.stats.cache_hits + 1 }
          cache := resolveFirst.cache
          events := [] })
    ∧ (pyTruthy (cacheEmpty.get tStart latEiffel lonEiffel) = false
      ∧ ((reverse_geocode cacheEmpty tStart latEiffel lonEiffel .exc
            initStats).stats.api_calls = initStats.api_calls + 1
        ∧ (reverse_geocode cacheEmpty tStart latEiffel lonEiffel .exc
            initStats).stats.cache_hits = initStats.cache_hits
        ∧ (reverse_geocode cacheEmpty tStart latEiffel lonEiffel .exc
            initStats).events.count Event.httpRequest = 1)) :=
  ⟨⟨by decide,
    resolve_cache_contract.1 resolveFirst.cache (tStart + oneMinute) latEiffel
      lonEiffel .exc resolveFirst.stats (by decide)⟩,
   ⟨by decide,
    resolve_cache_contract.2.1 cacheEmpty tStart latEiffel lonEiffel .exc
      initStats (by decide)⟩⟩

/-- C7: with skip-existing enabled and a non-empty existing-location probe,
the file's outcome is SKIPPED_ALREADY_TAGGED, `skipped_already_tagged`
rises by one, and the GPS read never happens (the trace holds only the
probe marker); when the skip test does not fire and no GPS data is found,
the outcome is SKIPPED_NO_GPS, `skipped_no_gps` rises by one, and
`total_processed` is unchanged. -/
theorem process_image_skip_paths :
    (∀ (env : WorkerEnv) (now : ℤ) (cache : GeocodingCache) (st : Stats),
        check_existing_location_data env.existingRead = true →
        process_image true env now cache st =
          { outcome := .skippedAlreadyTagged
            stats := { st with
              skipped_already_tagged := st.skipped_already_tagged + 1 }
            cache := cache
            events := [.exifExistingProbe] }
        ∧ Event.exifGpsRead ∉ (process_image true env now cache st).events)
    ∧ (∀ (skip : Bool) (env : WorkerEnv) (now : ℤ) (cache : GeocodingCache)
        (st : Stats),
        (skip && check_existing_location_data env.existingRead) = false →
        env.gpsResult = none →
        (process_image skip env now cache st).outcome = .skippedNoGPS
        ∧ (process_image skip env now cache st).stats.skipped_no_gps
            = st.skipped_no_gps + 1
        ∧ (process_image skip env now cache st).stats.total_processed
            = st.total_processed) := by
  constructor
  · intro env now cache st h
    have hpe : process_image true env now cache st =
        { outcome := .skippedAlreadyTagged
          stats := { st with
            skipped_already_tagged := st.skipped_already_tagged + 1 }
          cache := cache
          events := [.exifExistingProbe] } := by
      simp [process_image, h]
    refine ⟨hpe, ?_⟩
    rw [hpe]
    simp
  · intro skip env now cache st h1 h2
    simp [process_image, h1, h2]

/-- C7 witness: the tagged-file clause on a probe that prints `Paris`, and
the no-GPS clause with the skip test off. -/
theorem process_image_skip_paths_witness :
    (check_existing_location_data envTagged.existingRead = true
      ∧ (process_image true envTagged 0 cacheEmpty initStats =
          { outcome := .skippedAlreadyTagged
            stats := { initStats with
              skipped_already_tagged := initStats.skipped_already_tagged + 1 }
            cache := cacheEmpty
            events := [.exifExistingProbe] }
        ∧ Event.exifGpsRead ∉ (process_image true envTagged 0 cacheEmpty
            initStats).events))
    ∧ ((false && check_existing_location_data envNoGps.existingRead) = false
      ∧ envNoGps.gpsResult = none
      ∧ ((process_image false envNoGps 0 cacheEmpty initStats).outcome
            = .skippedNoGPS
        ∧ (process_image false envNoGps 0 cacheEmpty initStats).stats.skipped_no_gps
            = initStats.skipped_no_gps + 1
        ∧ (process_image false envNoGps 0 cacheEmpty initStats).stats.total_processed
            = initStats.total_processed)) :=
  ⟨⟨by decide,
    process_image_skip_paths.1 envTagged 0 cacheEmpty initStats (by decide)⟩,
   ⟨by decide, by decide,
    process_image_skip_paths.2 false envNoGps 0 cacheEmpty initStats
      (by decide) (by decide)⟩⟩

/-- C10 (implicit behaviour): a fresh cache entry whose stored record is
the empty mapping is treated as a miss by the resolver — the hit test is
Python truthiness of the returned record — so `cache_hits` stays put,
`api_calls` rises by one, and an HTTP request is issued; and the pipeline
classifies a falsy resolved record as NO_LOCATION_FOUND, leaving
`total_processed` unchanged. -/
theorem empty_record_cache_miss :
    (∀ (cache : GeocodingCache) (now : ℤ) (lat lon : ℚ) (http : HttpResult)
        (st : Stats),
        cache.get now lat lon = some ([] : LocationData) →
        (reverse_geocode cache now lat lon http st).stats.cache_hits
            = st.cache_hits
        ∧ (reverse_geocode cache now lat lon http st).stats.api_calls
            = st.api_calls + 1
        ∧ (reverse_geocode cache now lat lon http st).events.count
            Event.httpRequest = 1)
    ∧ (∀ (skip : Bool) (env : WorkerEnv) (now : ℤ) (cache : GeocodingCache)
        (st : Stats) (lat lon : ℚ),
        (skip && check_existing_location_data env.existingRead) = false →
        env.gpsResult = some (lat, lon) →
        pyTruthy (reverse_geocode cache now lat lon env.httpResponse st).result
            = false →
        (process_image skip env now cache st).outcome = .noLocationFound
        ∧ (process_image skip env now cache st).stats.total_processed
            = st.total_processed) := by
  constructor
  · intro cache now lat lon http st h
    have hf : pyTruthy (cache.get now lat lon) = false := by
      rw [h]
      rfl
    exact ⟨(reverse_geocode_miss cache now lat lon http st hf).2.1,
      (reverse_geocode_miss cache now lat lon http st hf).1,
      (reverse_geocode_miss cache now lat lon http st hf).2.2⟩
  · intro skip env now cache st lat lon h1 h2 h3
    simp [process_image, h1, h2, h3]
    exact reverse_geocode_total_processed cache now lat lon env.httpResponse st

/-- C10 witness: a fresh empty-record entry behaves as a miss; a file
whose resolve attempt fails is NO_LOCATION_FOUND with `total_processed`
unchanged. -/
theorem empty_record_cache_miss_witness :
    (cacheEmptyRec.get tStart latEiffel lonEiffel = some ([] : LocationData)
      ∧ ((reverse_geocode cacheEmptyRec tStart latEiffel lonEiffel .exc
            initStats).stats.cache_hits = initStats.cache_hits
        ∧ (reverse_geocode cacheEmptyRec tStart latEiffel lonEiffel .exc
            initStats).stats.api_calls = initStats.api_calls + 1
        ∧ (reverse_geocode cacheEmptyRec tStart latEiffel lonEiffel .exc
            initStats).events.count Event.httpRequest = 1))
    ∧ ((false && check_existing_location_data envGpsNoLoc.existingRead) = false
      ∧ envGpsNoLoc.gpsResult = some (latEiffel, lonEiffel)
      ∧ pyTruthy (reverse_geocode cacheEmpty tStart latEiffel lonEiffel
          envGpsNoLoc.httpResponse initStats).result = false
      ∧ ((process_image false envGpsNoLoc tStart cacheEmpty initStats).outcome
            = .noLocationFound
        ∧ (process_image false envGpsNoLoc tStart cacheEmpty
            initStats).stats.total_processed = initStats.total_processed)) :=
  ⟨⟨by decide,
    empty_record_cache_miss.1 cacheEmptyRec tStart latEiffel lonEiffel .exc
      initStats (by decide)⟩,
   ⟨by decide, by decide, by decide,
    empty_record_cache_miss.2 false envGpsNoLoc tStart cacheEmpty initStats
      latEiffel lonEiffel (by decide) (by decide) (by decide)⟩⟩

/-- C8 witness: five files, cancellation flag set after two. -/
theorem run_cancellation_witness :
    2 < fiveFiles.length
    ∧ ((run false 0 (some 2) fiveFiles cacheEmpty).stats,
          (run false 0 (some 2) fiveFiles cacheEmpty).cache)
        = processFold false 0 (fiveFiles.take 2) initStats cacheEmpty
    ∧ (run false 0 (some 2) fiveFiles cacheEmpty).events.count Event.finished = 1
    ∧ Event.error "Fehler" ∉ (run false 0 (some 2) fiveFiles cacheEmpty).events
    ∧ Event.log "Abgebrochen." ∈ (run false 0 (some 2) fiveFiles cacheEmpty).events
    ∧ (run false 0 (some 2) fiveFiles cacheEmpty).events.count Event.cancelCheck
        = 2 + 1 :=
  ⟨by decide,
   (run_cancellation false 0 fiveFiles cacheEmpty 2 (by decide)).1,
   (run_cancellation false 0 fiveFiles cacheEmpty 2 (by decide)).2.1,
   (run_cancellation false 0 fiveFiles cacheEmpty 2 (by decide)).2.2.1 "Fehler",
   (run_cancellation false 0 fiveFiles cacheEmpty 2 (by decide)).2.2.2.1,
   (run_cancellation false 0 fiveFiles cacheEmpty 2 (by decide)).2.2.2.2⟩
